import Mathlib

/-!
Shallow embedding of the belux-backend premium/calendar engine (src/server.py).

Datetimes are modelled as integer seconds since an epoch; truncating a
datetime to midnight (`.replace(hour=0, minute=0, second=0, microsecond=0)`)
becomes flooring to a multiple of 86400.  MongoDB collections become lists of
records; `find_one` becomes `List.find?` and `update_one` updates the first
matching record.  External collaborators (the AI analyzer, the MercadoPago
SDK) are passed in as parameters, and randomly generated identifiers are
passed in as `fresh_id` arguments.
-/

namespace Belux

/-- Seconds in one day (the granularity of `timedelta(days := n)`). -/
def secondsPerDay : Int := 86400

/-- `replace(hour=0, minute=0, second=0, microsecond=0)`: floor to midnight. -/
def truncToDay (t : Int) : Int := 86400 * (t.fdiv 86400)

/-- Contiguous-sublist test on characters, `needle in haystack` of Python. -/
def infixOfAux (needle : List Char) : List Char → Bool
  | [] => needle.isEmpty
  | c :: rest => needle.isPrefixOf (c :: rest) || infixOfAux needle rest

/-- Python's `.lower()`, modelled character by character (the model lowercases
ASCII letters; the keywords scanned for are already lowercase). -/
def pyLower (s : String) : List Char := s.toList.map Char.toLower

/-- Python's `needle in haystack` on a lowered text. -/
def containsSub (needle : String) (haystack : List Char) : Bool :=
  infixOfAux needle.toList haystack

/-- One checklist item of a daily entry (model `DailyChecklistItem`). -/
structure DailyChecklistItem where
  task : String
  completed : Bool
deriving Repr, DecidableEq

/-- A user document (model `User` plus the extra `$set` payment fields). -/
structure User where
  id : String
  full_name : String
  email : String
  is_premium : Bool := false
  is_subscriber : Bool := false
  premium_activated_at : Option Int := none
  subscription_started_at : Option Int := none
  trial_ends_at : Option Int := none
  premium_code : Option String := none
  premium_code_expires_at : Option Int := none
  last_payment_id : Option String := none
  last_payment_status : Option String := none
  last_payment_amount : Option Int := none
deriving Repr, DecidableEq

/-- A premium-code document of the `premium_codes` collection. -/
structure PremiumCode where
  code : String
  created_at : Int
  used : Bool
  used_by : Option String
  used_at : Option Int
deriving Repr, DecidableEq

/-- A daily-entry document (model `DailyEntry`). -/
structure DailyEntry where
  id : String
  user_id : String
  date : Int
  face_photo_base64 : Option String := none
  face_analysis : Option String := none
  products_photos : List String := []
  products_analysis : List String := []
  checklist : List DailyChecklistItem := []
  observations : String := ""
  created_at : Int := 0
  updated_at : Int := 0
deriving Repr, DecidableEq

/-- The persistent store: the collections the modelled endpoints touch. -/
structure DB where
  users : List User := []
  premium_codes : List PremiumCode := []
  daily_entries : List DailyEntry := []
deriving Repr, DecidableEq

/-- Mongo `update_one` with a `$set`: rewrite the first matching record. -/
def update_first {α : Type} (p : α → Bool) (f : α → α) : List α → List α
  | [] => []
  | x :: rest => if p x then f x :: rest else x :: update_first p f rest

/-! ### Quiz scorer (`analyze_quiz`, src/server.py lines 170-227) -/

/-- One (question, answer) pair of a quiz submission. -/
structure QuizAnswer where
  question : String
  answer : String
deriving Repr, DecidableEq

/-- The four keyword scores accumulated by `analyze_quiz`. -/
structure QuizScores where
  oily_score : Nat
  dry_score : Nat
  acne_score : Nat
  sensitive_score : Nat
deriving Repr, DecidableEq

/-- One iteration of the scoring loop of `analyze_quiz`. -/
def scoreStep (s : QuizScores) (ans : QuizAnswer) : QuizScores :=
  let q := pyLower ans.question
  let a := pyLower ans.answer
  let s := if containsSub "brilha" q && containsSub "sim" a then
    { s with oily_score := s.oily_score + 2 } else s
  let s := if containsSub "oleosidade" q && containsSub "sim" a then
    { s with oily_score := s.oily_score + 2 } else s
  let s := if containsSub "ressecamento" q && containsSub "sim" a then
    { s with dry_score := s.dry_score + 2 } else s
  let s := if containsSub "acne" q && containsSub "sim" a then
    { s with acne_score := s.acne_score + 2 } else s
  let s := if (containsSub "ardência" q || containsSub "sensível" q) && containsSub "sim" a then
    { s with sensitive_score := s.sensitive_score + 2 } else s
  let s := if containsSub "manchas" q && containsSub "sim" a then
    { s with sensitive_score := s.sensitive_score + 1 } else s
  s

/-- The scores after the whole loop of `analyze_quiz`. -/
def quizScores (answers : List QuizAnswer) : QuizScores :=
  answers.foldl scoreStep ⟨0, 0, 0, 0⟩

/-- The record returned by `analyze_quiz`. -/
structure QuizOutcome where
  skin_type : String
  characteristics : String
  recommendations : String
deriving Repr, DecidableEq

/-- `analyze_quiz`: priority cascade over the accumulated scores. -/
def analyze_quiz (answers : List QuizAnswer) : QuizOutcome :=
  let s := quizScores answers
  if s.acne_score ≥ 2 then
    { skin_type := "Acneica",
      characteristics := "Pele com tendência a acne, pode ter oleosidade aumentada e poros dilatados.",
      recommendations := "Produtos específicos para acne, limpeza suave e hidratação oil-free." }
  else if s.sensitive_score ≥ 2 then
    { skin_type := "Sensível",
      characteristics := "Pele reativa, pode apresentar vermelhidão e ardência com produtos inadequados.",
      recommendations := "Produtos hipoalergênicos, sem fragrância, com ingredientes calmantes." }
  else if s.oily_score ≥ 3 then
    { skin_type := "Oleosa",
      characteristics := "Pele com produção aumentada de sebo, brilho excessivo, principalmente na zona T.",
      recommendations := "Produtos matificantes, limpeza profunda, hidratação oil-free." }
  else if s.dry_score ≥ 2 then
    { skin_type := "Seca",
      characteristics := "Pele com baixa produção de oleosidade, pode ter sensação de repuxamento.",
      recommendations := "Hidratação intensa, produtos nutritivos, evitar limpeza agressiva." }
  else if s.oily_score ≥ 1 ∧ s.dry_score ≥ 1 then
    { skin_type := "Mista",
      characteristics := "Oleosidade na zona T (testa, nariz, queixo) e ressecamento nas bochechas.",
      recommendations := "Tratamento específico por zona, equilíbrio da oleosidade." }
  else
    { skin_type := "Normal",
      characteristics := "Pele equilibrada, sem excesso de oleosidade ou ressecamento.",
      recommendations := "Manutenção com produtos suaves, hidratação regular, proteção solar." }

/-! ### Calendar gate (`get_calendar_status`, src/server.py lines 1160-1258) -/

/-- Python truthiness of the optional `face_photo_base64` field
(`bool(None)` and `bool("")` are both false). -/
def hasPhotoB (e : DailyEntry) : Bool :=
  match e.face_photo_base64 with
  | none => false
  | some s => !s.toList.isEmpty

/-- `any(item["completed"] for item in checklist)`. -/
def hasChecklistB (e : DailyEntry) : Bool :=
  e.checklist.any (fun item => item.completed)

/-- The per-day record stored in the `calendar_status` dict. -/
structure DayStatus where
  status : String
  entryExists : Bool
  isComplete : Bool
  hasPhoto : Bool
  hasChecklist : Bool
deriving Repr, DecidableEq

/-- The hard-coded blocked day of the never-activated branch. -/
def blockedDay : DayStatus :=
  { status := "bloqueado", entryExists := false, isComplete := false,
    hasPhoto := false, hasChecklist := false }

/-- The `entries_dict` lookup by date string: when several entries of the user
fall on the same day, the later one overwrites the earlier in the dict. -/
def entryForDay (entries : List DailyEntry) (day : Int) : Option DailyEntry :=
  (entries.filter (fun e => truncToDay e.date == day)).getLast?

/-- The body of the per-day loop of `get_calendar_status` on the activated
branch: status decision plus the entry-derived flags. -/
def calendarDay (is_subscriber : Bool) (activation_date : Int)
    (trial_ends_at : Option Int) (entries : List DailyEntry) (check_date : Int) :
    DayStatus :=
  let status :=
    if is_subscriber then "liberado"
    else
      match trial_ends_at with
      | some te =>
        if check_date ≤ truncToDay te ∧ activation_date ≤ check_date then "liberado"
        else "bloqueado"
      | none =>
        if activation_date ≤ check_date ∧ check_date < activation_date + 86400 * 7 then
          "liberado"
        else "bloqueado"
  match entryForDay entries check_date with
  | some entry =>
    { status := status, entryExists := true,
      isComplete := hasPhotoB entry && hasChecklistB entry,
      hasPhoto := hasPhotoB entry, hasChecklist := hasChecklistB entry }
  | none =>
    { status := status, entryExists := false, isComplete := false,
      hasPhoto := false, hasChecklist := false }

/-- `GET /daily-entries/{user_id}/calendar-status`.  The response dict keyed
by date strings is modelled as the association list in key order: on the
activated branch the loop runs over `range(-30, 60)`, on the never-activated
branch over `range(-30, 30)` with every day hard-blocked. -/
def get_calendar_status (db : DB) (user_id : String) (now : Int) :
    Except Nat (List (Int × DayStatus)) :=
  match db.users.find? (fun u => u.id == user_id) with
  | none => Except.error 404
  | some user =>
    let today := truncToDay now
    match user.premium_activated_at with
    | some premium_activated_at =>
      let activation_date := truncToDay premium_activated_at
      let days_to_check : Nat := 60
      let entries := db.daily_entries.filter (fun e => e.user_id == user_id)
      Except.ok ((List.range (30 + days_to_check)).map (fun (j : Nat) =>
        let check_date := today + 86400 * ((j : Int) - 30)
        (check_date,
         calendarDay user.is_subscriber activation_date user.trial_ends_at
           entries check_date)))
    | none =>
      Except.ok ((List.range 60).map (fun (j : Nat) =>
        let check_date := today + 86400 * ((j : Int) - 30)
        (check_date, blockedDay)))

/-- Status reported for an absolute day, `none` when the day is not in the
response at all. -/
def dayStatusOf (r : Except Nat (List (Int × DayStatus))) (d : Int) :
    Option String :=
  match r with
  | Except.error _ => none
  | Except.ok l => (l.find? (fun p => p.1 == d)).map (fun p => p.2.status)

/-- Number of days covered by a calendar response. -/
def calLen (r : Except Nat (List (Int × DayStatus))) : Nat :=
  match r with
  | Except.error _ => 0
  | Except.ok l => l.length

/-! ### Subscription activation (`activate_subscription`, lines 971-986) -/

/-- `POST /subscription/activate`: unconditional `update_one` plus a fixed
success message; nothing is checked about the user existing. -/
def activate_subscription (db : DB) (user_id : String) (now : Int) : DB × String :=
  ({ db with
      users := update_first (fun u => u.id == user_id)
                 (fun u => { u with is_subscriber := true,
                                    subscription_started_at := some now })
                 db.users },
   "Assinatura ativada com sucesso")

/-! ### Premium status check (`check_premium_status`, lines 770-823) -/

/-- The JSON body answered by the premium-status check. -/
structure PremiumStatusResp where
  is_premium : Bool
  status : String
  expires_at : Option Int
  days_remaining : Option Int
deriving Repr, DecidableEq

/-- `premium_code_expires_at or trial_ends_at` (datetimes are truthy). -/
def effectiveExpiry (user : User) : Option Int :=
  match user.premium_code_expires_at with
  | some e => some e
  | none => user.trial_ends_at

/-- `GET /users/{user_id}/check-premium-status`: returns the possibly updated
store and the response; the 404 raise carries no store change. -/
def check_premium_status (db : DB) (user_id : String) (now : Int) :
    DB × Except Nat PremiumStatusResp :=
  match db.users.find? (fun u => u.id == user_id) with
  | none => (db, Except.error 404)
  | some user =>
    match user.is_premium, effectiveExpiry user with
    | true, some expires_dt =>
      if now > expires_dt then
        ({ db with
            users := update_first (fun u => u.id == user_id)
                       (fun u => { u with is_premium := false }) db.users },
         Except.ok { is_premium := false, status := "expired",
                     expires_at := some expires_dt, days_remaining := none })
      else
        (db, Except.ok { is_premium := true, status := "active",
                         expires_at := some expires_dt,
                         days_remaining := some ((expires_dt - now).fdiv 86400) })
    | _, _ =>
      (db, Except.ok { is_premium := false, status := "no_premium",
                       expires_at := none, days_remaining := none })

/-! ### Premium activation paths (lines 530-651) -/

/-- Python's `.strip()` (whitespace trim on both ends). -/
def pyStrip (s : String) : String :=
  String.mk (((s.toList.dropWhile Char.isWhitespace).reverse.dropWhile
    Char.isWhitespace).reverse)

/-- Python's `.strip().lower()` of the email normalisation (the model
lowercases ASCII letters). -/
def pyStripLower (s : String) : String :=
  String.mk ((((s.toList.dropWhile Char.isWhitespace).reverse.dropWhile
    Char.isWhitespace).reverse).map Char.toLower)

/-- Python's `.strip().upper()` of the code normalisation. -/
def pyStripUpper (s : String) : String :=
  String.mk ((((s.toList.dropWhile Char.isWhitespace).reverse.dropWhile
    Char.isWhitespace).reverse).map Char.toUpper)

/-- The success body shared by the activation endpoints. -/
structure ActivationResp where
  message : String
  expires_at : Int
  days_remaining : Nat
deriving Repr, DecidableEq

/-- `POST /users/{user_id}/activate-premium-code`: redeem a premium code.
Every error raise happens before any write, so error results return the
incoming store unchanged. -/
def activate_premium_code (db : DB) (user_id code_raw : String) (now : Int) :
    DB × Except (Nat × String) ActivationResp :=
  let code := pyStripUpper code_raw
  if code = "" then (db, Except.error (400, "Código não fornecido"))
  else
    match db.users.find? (fun u => u.id == user_id) with
    | none => (db, Except.error (404, "Usuário não encontrado"))
    | some _ =>
      match db.premium_codes.find? (fun c => c.code == code) with
      | none =>
        (db, Except.error (400, "Código inválido. Este código não existe no sistema."))
      | some premium_code =>
        if premium_code.used then
          (db, Except.error (400, "Código já foi utilizado por outro usuário."))
        else
          let expires_at := now + 30 * 86400
          let db1 := { db with
            users := update_first (fun u => u.id == user_id)
                       (fun u => { u with
                                   is_premium := true,
                                   premium_activated_at := some now,
                                   trial_ends_at := some expires_at,
                                   premium_code := some code,
                                   premium_code_expires_at := some expires_at })
                       db.users }
          let db2 := { db1 with
            premium_codes := update_first (fun c => c.code == code)
                               (fun c => { c with
                                           used := true,
                                           used_by := some user_id,
                                           used_at := some now })
                               db1.premium_codes }
          (db2, Except.ok { message := "Código ativado com sucesso!",
                            expires_at := expires_at, days_remaining := 30 })

/-- `POST /users/activate-premium-auto`: upsert by email and grant 30-day
premium; `fresh_id` models the generated uuid of the insert branch. -/
def activate_premium_auto (db : DB) (email_raw full_name_raw : String) (now : Int)
    (fresh_id : String) : DB × Except (Nat × String) ActivationResp :=
  let email := pyStripLower email_raw
  let full_name := pyStrip full_name_raw
  if email = "" ∨ full_name = "" then
    (db, Except.error (400, "Email e nome são obrigatórios"))
  else
    let expires_at := now + 30 * 86400
    match db.users.find? (fun u => u.email == email) with
    | some _ =>
      ({ db with
          users := update_first (fun u => u.email == email)
                     (fun u => { u with
                                 is_premium := true,
                                 premium_activated_at := some now,
                                 trial_ends_at := some expires_at })
                     db.users },
       Except.ok { message := "Premium ativado com sucesso!",
                   expires_at := expires_at, days_remaining := 30 })
    | none =>
      ({ db with users := db.users ++
          [{ id := fresh_id, full_name := full_name, email := email,
             is_premium := true, premium_activated_at := some now,
             trial_ends_at := some expires_at }] },
       Except.ok { message := "Premium ativado com sucesso!",
                   expires_at := expires_at, days_remaining := 30 })

/-! ### MercadoPago webhook (`mercadopago_webhook`, lines 988-1067) -/

/-- The payment details the MercadoPago SDK returns for a payment id; the SDK
is an external collaborator, so its answer is a parameter. -/
structure WebhookPayment where
  status : String
  user_email : Option String
  transaction_amount : Option Int
deriving Repr, DecidableEq

/-- `POST /webhook/mercadopago`.  The unconditional insert into the
`payment_notifications` log collection is outside the modelled store; the
returned string is the `message` field of the response. -/
def mercadopago_webhook (db : DB) (event_type action : String)
    (payment_id : Option String) (token_configured : Bool)
    (payment_data : WebhookPayment) (now : Int) : DB × String :=
  if event_type = "payment" ∨ action = "payment.created" ∨ action = "payment.updated" then
    match payment_id with
    | some pid =>
      match token_configured with
      | false => (db, "Webhook recebido, mas sem token configurado")
      | true =>
        if payment_data.status = "approved" then
          match payment_data.user_email with
          | some user_email =>
            match db.users.find? (fun u => u.email == user_email) with
            | some _ =>
              ({ db with
                  users := update_first (fun u => u.email == user_email)
                             (fun u => { u with
                                         is_premium := true,
                                         premium_activated_at := some now,
                                         trial_ends_at := some (now + 7 * 86400),
                                         last_payment_id := some pid,
                                         last_payment_status := some "approved",
                                         last_payment_amount :=
                                           payment_data.transaction_amount })
                             db.users },
               "Pagamento aprovado e usuário ativado")
            | none => (db, "Usuário não encontrado")
          | none => (db, "Email não identificado")
        else (db, "Pagamento com status: " ++ payment_data.status)
    | none => (db, "Evento recebido")
  else (db, "Evento recebido")

/-! ### Daily entries (`create_daily_entry` lines 1108-1142 and
`analyze_product_in_entry` lines 1356-1413) -/

/-- The default 5-item checklist of a fresh daily entry. -/
def defaultDailyChecklist : List DailyChecklistItem :=
  [{ task := "Lavei o rosto", completed := false },
   { task := "Usei tratamento adequado", completed := false },
   { task := "Usei hidratante", completed := false },
   { task := "Usei protetor solar", completed := false },
   { task := "Bebi água", completed := false }]

/-- The duplicate lookup of `create_daily_entry`: same user, date inside
`[date_start, date_start + 1 day)`. -/
def entryDayPred (user_id : String) (date_start : Int) (e : DailyEntry) : Bool :=
  e.user_id == user_id && decide (date_start ≤ e.date) &&
    decide (e.date < date_start + 86400)

/-- `POST /daily-entries/create`: return the existing entry of the day or
insert a fresh one; `fresh_id` models the generated uuid. -/
def create_daily_entry (db : DB) (user_id : String) (date : Option Int)
    (now : Int) (fresh_id : String) : DB × DailyEntry :=
  let date_start := truncToDay (date.getD now)
  match db.daily_entries.find? (entryDayPred user_id date_start) with
  | some existing => (db, existing)
  | none =>
    let new_entry : DailyEntry :=
      { id := fresh_id, user_id := user_id, date := date_start,
        checklist := defaultDailyChecklist, created_at := now, updated_at := now }
    ({ db with daily_entries := db.daily_entries ++ [new_entry] }, new_entry)

/-- `POST /daily-entries/{entry_id}/analyze-product`: the AI commentary
`analysis` is the external analyzer's answer, passed as a parameter. -/
def analyze_product_in_entry (db : DB) (entry_id image_base64 analysis : String)
    (now : Int) : DB × Except Nat String :=
  match db.daily_entries.find? (fun e => e.id == entry_id) with
  | none => (db, Except.error 404)
  | some entry =>
    let products_photos := entry.products_photos ++ [image_base64]
    let products_analysis := entry.products_analysis ++ [analysis]
    ({ db with
        daily_entries := update_first (fun e => e.id == entry_id)
                           (fun e => { e with
                                       products_photos := products_photos,
                                       products_analysis := products_analysis,
                                       updated_at := now })
                           db.daily_entries },
     Except.ok analysis)

/-! ### Concrete stores used by witnesses and counterexamples -/

/-- A subscriber whose `premium_activated_at` was never set. -/
def calUserNoAct : User :=
  { id := "u1", full_name := "Assinante Sem Ativacao", email := "u1@x.com",
    is_premium := false, is_subscriber := true }

/-- A subscriber with an activation timestamp. -/
def calUserSub : User :=
  { id := "u2", full_name := "Assinante Ativado", email := "u2@x.com",
    is_premium := true, is_subscriber := true,
    premium_activated_at := some 0, trial_ends_at := some (86400 * 30) }

/-- A premium non-subscriber activated today with no explicit trial expiry. -/
def calUserTrial : User :=
  { id := "u3", full_name := "Premium Trial", email := "u3@x.com",
    is_premium := true, is_subscriber := false,
    premium_activated_at := some 0, trial_ends_at := none }

/-- Store holding the three calendar-gate test users. -/
def calDB : DB := { users := [calUserNoAct, calUserSub, calUserTrial] }

/-- A premium user whose effective expiry (trial) lies in the past at t=200. -/
def premUser : User :=
  { id := "p1", full_name := "Premium Expirado", email := "p1@x.com",
    is_premium := true, premium_activated_at := some 0, trial_ends_at := some 100 }

/-- Store holding the expiring premium user. -/
def premDB : DB := { users := [premUser] }

/-- A registered non-premium user. -/
def codeUserA : User := { id := "a1", full_name := "Alice", email := "a@x.com" }

/-- A second registered user for the double-redemption scenario. -/
def codeUserB : User := { id := "b1", full_name := "Bruna", email := "b@x.com" }

/-- A premium code whose `used` flag is already set. -/
def usedCode : PremiumCode :=
  { code := "BELUXUSED1234", created_at := 0, used := true,
    used_by := some "zz", used_at := some 0 }

/-- A premium code not yet redeemed. -/
def freshCode : PremiumCode :=
  { code := "BELUXAB12CD34", created_at := 0, used := false,
    used_by := none, used_at := none }

/-- Store with two users and the already-used code. -/
def codeDB : DB := { users := [codeUserA, codeUserB], premium_codes := [usedCode] }

/-- Store with two users and the fresh code. -/
def codeDB2 : DB := { users := [codeUserA, codeUserB], premium_codes := [freshCode] }

/-- A user reachable by the payment webhook. -/
def hookUser : User := { id := "h1", full_name := "Helena", email := "h@x.com" }

/-- Store holding the webhook user. -/
def hookDB : DB := { users := [hookUser] }

/-- An approved payment naming the webhook user's email. -/
def hookPayment : WebhookPayment :=
  { status := "approved", user_email := some "h@x.com", transaction_amount := some 49 }

/-- A daily entry with one photo and one analysis already present. -/
def entryE : DailyEntry :=
  { id := "e1", user_id := "h1", date := 0,
    products_photos := ["foto0"], products_analysis := ["analise0"] }

/-- Store holding that daily entry. -/
def entryDB : DB := { daily_entries := [entryE] }

/-!
## Theorems

General lemmas about `update_first`, then one theorem (plus witness or
counterexample) per claim.
-/

theorem update_first_of_none {α : Type} (p : α → Bool) (f : α → α) :
    ∀ l : List α, l.find? p = none → update_first p f l = l := by
  intro l
  induction l with
  | nil => intro _; rfl
  | cons x rest ih =>
    intro h
    by_cases hx : p x = true
    · rw [List.find?_cons_of_pos _ hx] at h
      cases h
    · have hx' : p x = false := by simpa using hx
      rw [List.find?_cons_of_neg _ hx] at h
      simp [update_first, hx', ih h]

theorem find?_update_first {α : Type} (p : α → Bool) (f : α → α) :
    ∀ (l : List α) (x : α), l.find? p = some x → p (f x) = true →
      (update_first p f l).find? p = some (f x) := by
  intro l
  induction l with
  | nil => intro x h _; cases h
  | cons y rest ih =>
    intro x h hfx
    by_cases hy : p y = true
    · rw [List.find?_cons_of_pos _ hy] at h
      injection h with h
      subst h
      simp only [update_first, if_pos hy]
      exact List.find?_cons_of_pos _ hfx
    · have hy' : p y = false := by simpa using hy
      rw [List.find?_cons_of_neg _ hy] at h
      simp only [update_first, hy', Bool.false_eq_true, if_false]
      rw [List.find?_cons_of_neg _ hy]
      exact ih x h hfx

theorem update_first_append_left_none {α : Type} (p : α → Bool) (f : α → α) :
    ∀ l₁ l₂ : List α, l₁.find? p = none →
      update_first p f (l₁ ++ l₂) = l₁ ++ update_first p f l₂ := by
  intro l₁
  induction l₁ with
  | nil => intro l₂ _; rfl
  | cons x rest ih =>
    intro l₂ h
    by_cases hx : p x = true
    · rw [List.find?_cons_of_pos _ hx] at h
      cases h
    · have hx' : p x = false := by simpa using hx
      rw [List.find?_cons_of_neg _ hx] at h
      simp [update_first, hx', ih l₂ h]

theorem countP_update_first {α : Type} (p : α → Bool) (f : α → α)
    (hf : ∀ x, p (f x) = p x) :
    ∀ l : List α, (update_first p f l).countP p = l.countP p := by
  intro l
  induction l with
  | nil => rfl
  | cons x rest ih =>
    by_cases hx : p x = true
    · simp [update_first, hx, List.countP_cons, hf]
    · simp only [Bool.not_eq_true] at hx
      simp [update_first, hx, List.countP_cons, ih]

theorem find?_update_first_isSome {α : Type} (p q : α → Bool) (f : α → α)
    (hpf : ∀ x, p (f x) = p x) :
    ∀ l : List α, ((update_first q f l).find? p).isSome = (l.find? p).isSome := by
  intro l
  induction l with
  | nil => rfl
  | cons x rest ih =>
    by_cases hq : q x = true
    · simp only [update_first, if_pos hq]
      by_cases hp : p x = true
      · rw [List.find?_cons_of_pos _ (by rw [hpf]; exact hp),
            List.find?_cons_of_pos _ hp]
        rfl
      · rw [List.find?_cons_of_neg _ (by rw [hpf]; exact hp),
            List.find?_cons_of_neg _ hp]
    · simp only [update_first]
      by_cases hp : p x = true
      · rw [if_neg hq, List.find?_cons_of_pos _ hp,
            List.find?_cons_of_pos _ hp]
      · rw [if_neg hq, List.find?_cons_of_neg _ hp,
            List.find?_cons_of_neg _ hp]
        exact ih

theorem calendarDay_status (s : Bool) (a : Int) (te : Option Int)
    (es : List DailyEntry) (d : Int) :
    (calendarDay s a te es d).status =
      (if s then "liberado"
       else
         match te with
         | some t => if d ≤ truncToDay t ∧ a ≤ d then "liberado" else "bloqueado"
         | none => if a ≤ d ∧ d < a + 86400 * 7 then "liberado" else "bloqueado") := by
  simp only [calendarDay]
  cases entryForDay es d <;> rfl

theorem ite_liberado (c : Prop) [Decidable c] :
    ((if c then "liberado" else "bloqueado") = ("liberado" : String)) ↔ c := by
  by_cases h : c
  · simp [h]
  · rw [if_neg h]
    exact ⟨fun hh => absurd hh (by decide), fun hc => absurd hc h⟩

/-- Claim C9: whenever the answers accumulate an acne score of at least 2,
`analyze_quiz` returns skin type "Acneica", whatever the other scores are. -/
theorem analyze_quiz_acne_priority (answers : List QuizAnswer)
    (h : 2 ≤ (quizScores answers).acne_score) :
    (analyze_quiz answers).skin_type = "Acneica" := by
  unfold analyze_quiz
  rw [if_pos h]

/-- Witness for C9 at a concrete one-question submission. -/
theorem analyze_quiz_acne_priority_witness :
    2 ≤ (quizScores [⟨"Tem acne com frequencia?", "sim"⟩]).acne_score ∧
      (analyze_quiz [⟨"Tem acne com frequencia?", "sim"⟩]).skin_type = "Acneica" :=
  ⟨by decide, analyze_quiz_acne_priority _ (by decide)⟩

/-- Claim C10: when no user carries the given id, `activate_subscription`
changes nothing and still answers with the success message. -/
theorem activate_subscription_missing_user (db : DB) (user_id : String) (now : Int)
    (h : db.users.find? (fun u => u.id == user_id) = none) :
    activate_subscription db user_id now = (db, "Assinatura ativada com sucesso") := by
  unfold activate_subscription
  rw [update_first_of_none _ _ _ h]

/-- Witness for C10 on the empty store. -/
theorem activate_subscription_missing_user_witness :
    (({} : DB).users.find? (fun u => u.id == "ghost") = none) ∧
      activate_subscription {} "ghost" 0 = ({}, "Assinatura ativada com sucesso") :=
  ⟨rfl, activate_subscription_missing_user {} "ghost" 0 rfl⟩

/-- Claim C1 (counterexample): the first user is a subscriber whose
`premium_activated_at` is unset, and the gate reports today as blocked for
them; the second user is a subscriber with an activation date, and day
today+60 is not reported at all. -/
theorem calendar_subscriber_claim_cex :
    calUserNoAct.is_subscriber = true ∧
    calDB.users.find? (fun u => u.id == "u1") = some calUserNoAct ∧
    calUserNoAct.premium_activated_at = none ∧
    dayStatusOf (get_calendar_status calDB "u1" 0) 0 = some "bloqueado" ∧
    calUserSub.is_subscriber = true ∧
    calDB.users.find? (fun u => u.id == "u2") = some calUserSub ∧
    dayStatusOf (get_calendar_status calDB "u2" 0) (86400 * 60) = none := by
  exact ⟨rfl, by decide, rfl, by decide, rfl, by decide, by decide⟩

/-- Claim C1 (amended): for every user with `is_subscriber = true` whose
`premium_activated_at` is set, every reported day — exactly the days from
today−30 through today+59 — is unlocked, irrespective of the activation and
trial values. -/
theorem calendar_subscriber_window (db : DB) (user_id : String) (now pact : Int)
    (user : User)
    (hf : db.users.find? (fun u => u.id == user_id) = some user)
    (hsub : user.is_subscriber = true)
    (hact : user.premium_activated_at = some pact) :
    ∃ l, get_calendar_status db user_id now = Except.ok l ∧ l.length = 90 ∧
      ∀ i : Nat, ∀ h : i < l.length,
        (l.get ⟨i, h⟩).1 = truncToDay now + 86400 * ((i : Int) - 30) ∧
        (l.get ⟨i, h⟩).2.status = "liberado" := by
  have hres : get_calendar_status db user_id now =
      Except.ok ((List.range (30 + 60)).map (fun (j : Nat) =>
        (truncToDay now + 86400 * ((j : Int) - 30),
         calendarDay user.is_subscriber (truncToDay pact) user.trial_ends_at
           (db.daily_entries.filter (fun e => e.user_id == user_id))
           (truncToDay now + 86400 * ((j : Int) - 30))))) := by
    unfold get_calendar_status
    rw [hf]
    simp only [hact]
  refine ⟨_, hres, by simp, ?_⟩
  intro i h
  simp only [List.get_eq_getElem, List.getElem_map, List.getElem_range]
  refine ⟨trivial, ?_⟩
  rw [calendarDay_status, hsub]
  rfl

/-- Witness for the amended C1 at a concrete subscriber. -/
theorem calendar_subscriber_window_witness :
    calDB.users.find? (fun u => u.id == "u2") = some calUserSub ∧
    calUserSub.is_subscriber = true ∧
    calUserSub.premium_activated_at = some 0 ∧
    (∃ l, get_calendar_status calDB "u2" 0 = Except.ok l ∧ l.length = 90 ∧
      ∀ i : Nat, ∀ h : i < l.length,
        (l.get ⟨i, h⟩).1 = truncToDay 0 + 86400 * ((i : Int) - 30) ∧
        (l.get ⟨i, h⟩).2.status = "liberado") :=
  ⟨by decide, rfl, rfl,
   calendar_subscriber_window calDB "u2" 0 0 calUserSub (by decide) rfl rfl⟩

/-- Claim C2 (counterexample): for the never-activated user the response
covers 60 days and day today+40 is absent; for the activated subscriber it
covers 90 days and day today+60 is absent — so no branch covers
[today−30, today+60] and the branches do not scan the same range. -/
theorem calendar_window_claim_cex :
    calDB.users.find? (fun u => u.id == "u1") = some calUserNoAct ∧
    calDB.users.find? (fun u => u.id == "u2") = some calUserSub ∧
    calLen (get_calendar_status calDB "u1" 0) = 60 ∧
    calLen (get_calendar_status calDB "u2" 0) = 90 ∧
    dayStatusOf (get_calendar_status calDB "u1" 0) (86400 * 40) = none ∧
    dayStatusOf (get_calendar_status calDB "u2" 0) (86400 * 60) = none := by
  exact ⟨by decide, by decide, by decide, by decide, by decide, by decide⟩

/-- Claim C2 (amended): for every existing user the response lists
consecutive days starting at today−30: 90 of them (through today+59) when
`premium_activated_at` is set, and 60 (through today+29) when it is unset. -/
theorem calendar_window_shape (db : DB) (user_id : String) (now : Int)
    (user : User)
    (hf : db.users.find? (fun u => u.id == user_id) = some user) :
    ∃ l, get_calendar_status db user_id now = Except.ok l ∧
      l.length = (if user.premium_activated_at.isSome then 90 else 60) ∧
      ∀ i : Nat, ∀ h : i < l.length,
        (l.get ⟨i, h⟩).1 = truncToDay now + 86400 * ((i : Int) - 30) := by
  cases hact : user.premium_activated_at with
  | some pact =>
    have hres : get_calendar_status db user_id now =
        Except.ok ((List.range (30 + 60)).map (fun (j : Nat) =>
          (truncToDay now + 86400 * ((j : Int) - 30),
           calendarDay user.is_subscriber (truncToDay pact) user.trial_ends_at
             (db.daily_entries.filter (fun e => e.user_id == user_id))
             (truncToDay now + 86400 * ((j : Int) - 30))))) := by
      unfold get_calendar_status
      rw [hf]
      simp only [hact]
    refine ⟨_, hres, by simp [hact], ?_⟩
    intro i h
    simp only [List.get_eq_getElem, List.getElem_map, List.getElem_range]
  | none =>
    have hres : get_calendar_status db user_id now =
        Except.ok ((List.range 60).map (fun (j : Nat) =>
          (truncToDay now + 86400 * ((j : Int) - 30), blockedDay))) := by
      unfold get_calendar_status
      rw [hf]
      simp only [hact]
    refine ⟨_, hres, by simp [hact], ?_⟩
    intro i h
    simp only [List.get_eq_getElem, List.getElem_map, List.getElem_range]

/-- Witness for the amended C2 at a concrete never-activated user. -/
theorem calendar_window_shape_witness :
    calDB.users.find? (fun u => u.id == "u1") = some calUserNoAct ∧
    (∃ l, get_calendar_status calDB "u1" 0 = Except.ok l ∧
      l.length = (if calUserNoAct.premium_activated_at.isSome then 90 else 60) ∧
      ∀ i : Nat, ∀ h : i < l.length,
        (l.get ⟨i, h⟩).1 = truncToDay 0 + 86400 * ((i : Int) - 30)) :=
  ⟨by decide, calendar_window_shape calDB "u1" 0 calUserNoAct (by decide)⟩

/-- Claim C3: a premium non-subscriber activated on day 0 with no explicit
trial expiry gets exactly the offsets 0 through 6 (indices 30 through 36 of
the response) unlocked; in particular day 7 (index 37) and day −1 (index 29)
are blocked. -/
theorem calendar_trial_default_week (db : DB) (user_id : String)
    (now pact : Int) (user : User)
    (hf : db.users.find? (fun u => u.id == user_id) = some user)
    (hsub : user.is_subscriber = false)
    (hact : user.premium_activated_at = some pact)
    (hday : truncToDay pact = truncToDay now)
    (htrial : user.trial_ends_at = none) :
    ∃ l, get_calendar_status db user_id now = Except.ok l ∧ l.length = 90 ∧
      ∀ i : Nat, ∀ h : i < l.length,
        (l.get ⟨i, h⟩).1 = truncToDay now + 86400 * ((i : Int) - 30) ∧
        ((l.get ⟨i, h⟩).2.status = "liberado" ↔ 30 ≤ i ∧ i ≤ 36) := by
  have hres : get_calendar_status db user_id now =
      Except.ok ((List.range (30 + 60)).map (fun (j : Nat) =>
        (truncToDay now + 86400 * ((j : Int) - 30),
         calendarDay user.is_subscriber (truncToDay pact) user.trial_ends_at
           (db.daily_entries.filter (fun e => e.user_id == user_id))
           (truncToDay now + 86400 * ((j : Int) - 30))))) := by
    unfold get_calendar_status
    rw [hf]
    simp only [hact]
  refine ⟨_, hres, by simp, ?_⟩
  intro i h
  simp only [List.get_eq_getElem, List.getElem_map, List.getElem_range]
  refine ⟨trivial, ?_⟩
  rw [calendarDay_status, hday]
  simp only [hsub, htrial, Bool.false_eq_true, if_false]
  rw [ite_liberado]
  omega

/-- Witness for C3 at a concrete premium user activated at the epoch. -/
theorem calendar_trial_default_week_witness :
    calDB.users.find? (fun u => u.id == "u3") = some calUserTrial ∧
    calUserTrial.is_subscriber = false ∧
    calUserTrial.premium_activated_at = some 0 ∧
    truncToDay 0 = truncToDay 0 ∧
    calUserTrial.trial_ends_at = none ∧
    (∃ l, get_calendar_status calDB "u3" 0 = Except.ok l ∧ l.length = 90 ∧
      ∀ i : Nat, ∀ h : i < l.length,
        (l.get ⟨i, h⟩).1 = truncToDay 0 + 86400 * ((i : Int) - 30) ∧
        ((l.get ⟨i, h⟩).2.status = "liberado" ↔ 30 ≤ i ∧ i ≤ 36)) :=
  ⟨by decide, rfl, rfl, rfl, rfl,
   calendar_trial_default_week calDB "u3" 0 0 calUserTrial (by decide) rfl rfl rfl rfl⟩

/-- Claim C4: for a premium user with a non-null effective expiry
(`premium_code_expires_at` if present, else `trial_ends_at`), a check past
the expiry answers status "expired" and persists `is_premium = false`;
otherwise it answers status "active" with the floored number of whole days
remaining and leaves the store unchanged. -/
theorem check_premium_status_spec (db : DB) (user_id : String) (now e : Int)
    (user : User)
    (hf : db.users.find? (fun u => u.id == user_id) = some user)
    (hp : user.is_premium = true)
    (he : effectiveExpiry user = some e) :
    (now > e →
      (check_premium_status db user_id now).2 =
        Except.ok { is_premium := false, status := "expired",
                    expires_at := some e, days_remaining := none } ∧
      ∃ u', ((check_premium_status db user_id now).1).users.find?
              (fun u => u.id == user_id) = some u' ∧ u'.is_premium = false) ∧
    (¬ now > e →
      check_premium_status db user_id now =
        (db, Except.ok { is_premium := true, status := "active",
                         expires_at := some e,
                         days_remaining := some ((e - now).fdiv 86400) })) := by
  have hpu := List.find?_some hf
  unfold check_premium_status
  rw [hf]
  simp only [hp, he]
  constructor
  · intro hlt
    rw [if_pos hlt]
    refine ⟨rfl, ?_⟩
    exact ⟨{ user with is_premium := false },
           find?_update_first _ _ db.users user hf hpu, rfl⟩
  · intro hge
    rw [if_neg hge]

/-- Witness for C4 at a user whose trial expired at t=100, checked at t=200. -/
theorem check_premium_status_spec_witness :
    premDB.users.find? (fun u => u.id == "p1") = some premUser ∧
    premUser.is_premium = true ∧
    effectiveExpiry premUser = some 100 ∧
    ((200 > (100 : Int) →
      (check_premium_status premDB "p1" 200).2 =
        Except.ok { is_premium := false, status := "expired",
                    expires_at := some 100, days_remaining := none } ∧
      ∃ u', ((check_premium_status premDB "p1" 200).1).users.find?
              (fun u => u.id == "p1") = some u' ∧ u'.is_premium = false) ∧
    (¬ (200 : Int) > 100 →
      check_premium_status premDB "p1" 200 =
        (premDB, Except.ok { is_premium := true, status := "active",
                             expires_at := some 100,
                             days_remaining := some (((100 : Int) - 200).fdiv 86400) }))) :=
  ⟨by decide, rfl, rfl,
   check_premium_status_spec premDB "p1" 200 100 premUser (by decide) rfl rfl⟩

/-- Claim C5: redeeming a code whose `used` flag is set fails with the 400
conflict error and leaves the whole store — user and code records included —
unchanged; and after a successful redemption the same code is rejected when
any other existing user attempts it. -/
theorem activate_premium_code_conflict :
    (∀ (db : DB) (uid c : String) (now : Int) (u : User) (pc : PremiumCode),
       pyStripUpper c ≠ "" →
       db.users.find? (fun x => x.id == uid) = some u →
       db.premium_codes.find? (fun x => x.code == pyStripUpper c) = some pc →
       pc.used = true →
       activate_premium_code db uid c now =
         (db, Except.error (400, "Código já foi utilizado por outro usuário."))) ∧
    (∀ (db : DB) (uid₁ uid₂ c : String) (now₁ now₂ : Int) (u₁ : User)
       (pc : PremiumCode),
       pyStripUpper c ≠ "" →
       db.users.find? (fun x => x.id == uid₁) = some u₁ →
       db.premium_codes.find? (fun x => x.code == pyStripUpper c) = some pc →
       pc.used = false →
       (∃ r, (activate_premium_code db uid₁ c now₁).2 = Except.ok r) ∧
       (∀ u₂, db.users.find? (fun x => x.id == uid₂) = some u₂ →
          activate_premium_code ((activate_premium_code db uid₁ c now₁).1) uid₂ c
              now₂ =
            ((activate_premium_code db uid₁ c now₁).1,
             Except.error (400, "Código já foi utilizado por outro usuário.")))) := by
  constructor
  · intro db uid c now u pc hne hu hc hused
    simp only [activate_premium_code]
    rw [if_neg hne, hu]
    simp [hc, hused]
  · intro db uid₁ uid₂ c now₁ now₂ u₁ pc hne hu₁ hc hused
    have hpcc := List.find?_some hc
    have hstep : activate_premium_code db uid₁ c now₁ =
        ({ db with
            users := update_first (fun x => x.id == uid₁)
                       (fun x => { x with
                                   is_premium := true,
                                   premium_activated_at := some now₁,
                                   trial_ends_at := some (now₁ + 30 * 86400),
                                   premium_code := some (pyStripUpper c),
                                   premium_code_expires_at :=
                                     some (now₁ + 30 * 86400) })
                       db.users,
            premium_codes := update_first (fun x => x.code == pyStripUpper c)
                               (fun x => { x with
                                           used := true,
                                           used_by := some uid₁,
                                           used_at := some now₁ })
                               db.premium_codes },
         Except.ok { message := "Código ativado com sucesso!",
                     expires_at := now₁ + 30 * 86400, days_remaining := 30 }) := by
      simp only [activate_premium_code]
      rw [if_neg hne, hu₁]
      simp [hc, hused]
    refine ⟨⟨_, by rw [hstep]⟩, ?_⟩
    intro u₂ hu₂
    rw [hstep]
    have hsome := find?_update_first_isSome (fun x : User => x.id == uid₂)
        (fun x : User => x.id == uid₁)
        (fun x : User => { x with
                           is_premium := true,
                           premium_activated_at := some now₁,
                           trial_ends_at := some (now₁ + 30 * 86400),
                           premium_code := some (pyStripUpper c),
                           premium_code_expires_at := some (now₁ + 30 * 86400) })
        (fun x => rfl) db.users
    rw [hu₂] at hsome
    obtain ⟨v, hv⟩ := Option.isSome_iff_exists.mp (hsome.trans rfl)
    have hc₂ := find?_update_first (fun x => x.code == pyStripUpper c)
      (fun x => { x with used := true, used_by := some uid₁, used_at := some now₁ })
      db.premium_codes pc hc hpcc
    simp only [activate_premium_code]
    rw [if_neg hne, hv]
    simp [hc₂]

/-- Witness for C5: the already-used code is rejected with the store intact,
and the fresh code, once redeemed by the first user, is rejected for the
second user. -/
theorem activate_premium_code_conflict_witness :
    (pyStripUpper "BELUXUSED1234" ≠ "" ∧
     codeDB.users.find? (fun x => x.id == "a1") = some codeUserA ∧
     codeDB.premium_codes.find?
       (fun x => x.code == pyStripUpper "BELUXUSED1234") = some usedCode ∧
     usedCode.used = true ∧
     activate_premium_code codeDB "a1" "BELUXUSED1234" 5 =
       (codeDB, Except.error (400, "Código já foi utilizado por outro usuário."))) ∧
    (pyStripUpper "BELUXAB12CD34" ≠ "" ∧
     codeDB2.users.find? (fun x => x.id == "a1") = some codeUserA ∧
     codeDB2.premium_codes.find?
       (fun x => x.code == pyStripUpper "BELUXAB12CD34") = some freshCode ∧
     freshCode.used = false ∧
     codeDB2.users.find? (fun x => x.id == "b1") = some codeUserB ∧
     (∃ r, (activate_premium_code codeDB2 "a1" "BELUXAB12CD34" 5).2 = Except.ok r) ∧
     activate_premium_code ((activate_premium_code codeDB2 "a1" "BELUXAB12CD34" 5).1)
         "b1" "BELUXAB12CD34" 9 =
       ((activate_premium_code codeDB2 "a1" "BELUXAB12CD34" 5).1,
        Except.error (400, "Código já foi utilizado por outro usuário."))) :=
  ⟨⟨by decide, by decide, by decide, rfl,
    activate_premium_code_conflict.1 codeDB "a1" "BELUXUSED1234" 5 codeUserA
      usedCode (by decide) (by decide) (by decide) rfl⟩,
   ⟨by decide, by decide, by decide, rfl, by decide,
    (activate_premium_code_conflict.2 codeDB2 "a1" "b1" "BELUXAB12CD34" 5 9
      codeUserA freshCode (by decide) (by decide) (by decide) rfl).1,
    (activate_premium_code_conflict.2 codeDB2 "a1" "b1" "BELUXAB12CD34" 5 9
      codeUserA freshCode (by decide) (by decide) (by decide) rfl).2 codeUserB
      (by decide)⟩⟩

/-- Claim C6: calling `activate_premium_auto` twice with the same email on a
store holding no user with that email leaves exactly one record for it,
premium, activated, with the 30-day expiry recomputed from the second call's
clock. -/
theorem activate_premium_auto_idempotent (db : DB) (e n : String)
    (t₁ t₂ : Int) (id₁ id₂ : String)
    (he : pyStripLower e ≠ "") (hn : pyStrip n ≠ "")
    (h0 : db.users.find? (fun u => u.email == pyStripLower e) = none) :
    (((activate_premium_auto ((activate_premium_auto db e n t₁ id₁).1) e n t₂
        id₂).1).users.countP (fun u => u.email == pyStripLower e) = 1) ∧
    (∃ u, ((activate_premium_auto ((activate_premium_auto db e n t₁ id₁).1) e n t₂
        id₂).1).users.find? (fun u => u.email == pyStripLower e) = some u ∧
      u.is_premium = true ∧ u.premium_activated_at = some t₂ ∧
      u.trial_ends_at = some (t₂ + 30 * 86400)) := by
  have hne : ¬ (pyStripLower e = "" ∨ pyStrip n = "") := not_or.mpr ⟨he, hn⟩
  have hbeq : ((pyStripLower e) == (pyStripLower e)) = true := beq_self_eq_true _
  have h1 : (activate_premium_auto db e n t₁ id₁).1 =
      { db with users := db.users ++
          [{ id := id₁, full_name := pyStrip n, email := pyStripLower e,
             is_premium := true, premium_activated_at := some t₁,
             trial_ends_at := some (t₁ + 30 * 86400) }] } := by
    simp only [activate_premium_auto]
    rw [if_neg hne, h0]
  have hfind1 : (db.users ++
      [({ id := id₁, full_name := pyStrip n, email := pyStripLower e,
          is_premium := true, premium_activated_at := some t₁,
          trial_ends_at := some (t₁ + 30 * 86400) } : User)]).find?
      (fun u => u.email == pyStripLower e) =
      some { id := id₁, full_name := pyStrip n, email := pyStripLower e,
             is_premium := true, premium_activated_at := some t₁,
             trial_ends_at := some (t₁ + 30 * 86400) } := by
    rw [List.find?_append, h0]
    simp [hbeq]
  have h2 : (activate_premium_auto ((activate_premium_auto db e n t₁ id₁).1) e n
      t₂ id₂).1 =
      { db with users := db.users ++
          [{ id := id₁, full_name := pyStrip n, email := pyStripLower e,
             is_premium := true, premium_activated_at := some t₂,
             trial_ends_at := some (t₂ + 30 * 86400) }] } := by
    rw [h1]
    simp only [activate_premium_auto]
    rw [if_neg hne, hfind1]
    rw [update_first_append_left_none _ _ _ _ h0]
    simp [update_first, hbeq]
  rw [h2]
  constructor
  · rw [List.countP_append]
    rw [List.countP_eq_zero.mpr (fun a ha => List.find?_eq_none.mp h0 a ha)]
    simp [hbeq]
  · refine ⟨{ id := id₁, full_name := pyStrip n, email := pyStripLower e,
              is_premium := true, premium_activated_at := some t₂,
              trial_ends_at := some (t₂ + 30 * 86400) }, ?_, rfl, rfl, rfl⟩
    rw [List.find?_append, h0]
    simp [hbeq]

/-- Witness for C6: two auto-activations on the empty store at t=0 and t=7. -/
theorem activate_premium_auto_idempotent_witness :
    pyStripLower " Ana@X.com " ≠ "" ∧ pyStrip " Ana Lima " ≠ "" ∧
    ({} : DB).users.find? (fun u => u.email == pyStripLower " Ana@X.com ") = none ∧
    ((((activate_premium_auto ((activate_premium_auto {} " Ana@X.com " " Ana Lima "
        0 "i1").1) " Ana@X.com " " Ana Lima " 7 "i2").1).users.countP
        (fun u => u.email == pyStripLower " Ana@X.com ") = 1) ∧
     (∃ u, ((activate_premium_auto ((activate_premium_auto {} " Ana@X.com "
        " Ana Lima " 0 "i1").1) " Ana@X.com " " Ana Lima " 7 "i2").1).users.find?
        (fun u => u.email == pyStripLower " Ana@X.com ") = some u ∧
       u.is_premium = true ∧ u.premium_activated_at = some 7 ∧
       u.trial_ends_at = some (7 + 30 * 86400))) :=
  ⟨by decide, by decide, rfl,
   activate_premium_auto_idempotent {} " Ana@X.com " " Ana Lima " 0 7 "i1" "i2"
     (by decide) (by decide) rfl⟩

/-- Claim C7: an approved payment event whose email matches an existing user
grants that user premium with expiry now+7 days (a different policy from the
30-day code and auto paths); when no user matches, the handler answers the
warning message and the store is unchanged — no user record is created. -/
theorem mercadopago_webhook_spec :
    (∀ (db : DB) (et ac pid : String) (payment : WebhookPayment) (now : Int)
       (user_email : String) (user : User),
       (et = "payment" ∨ ac = "payment.created" ∨ ac = "payment.updated") →
       payment.status = "approved" →
       payment.user_email = some user_email →
       db.users.find? (fun u => u.email == user_email) = some user →
       (mercadopago_webhook db et ac (some pid) true payment now).2 =
         "Pagamento aprovado e usuário ativado" ∧
       (∃ u', ((mercadopago_webhook db et ac (some pid) true payment
                 now).1).users.find? (fun u => u.email == user_email) = some u' ∧
          u'.is_premium = true ∧ u'.trial_ends_at = some (now + 7 * 86400))) ∧
    (∀ (db : DB) (et ac pid : String) (payment : WebhookPayment) (now : Int)
       (user_email : String),
       (et = "payment" ∨ ac = "payment.created" ∨ ac = "payment.updated") →
       payment.status = "approved" →
       payment.user_email = some user_email →
       db.users.find? (fun u => u.email == user_email) = none →
       mercadopago_webhook db et ac (some pid) true payment now =
         (db, "Usuário não encontrado")) := by
  constructor
  · intro db et ac pid payment now user_email user hev hst hem hf
    have hpu := List.find?_some hf
    have hrun : mercadopago_webhook db et ac (some pid) true payment now =
        ({ db with
            users := update_first (fun u => u.email == user_email)
                       (fun u => { u with
                                   is_premium := true,
                                   premium_activated_at := some now,
                                   trial_ends_at := some (now + 7 * 86400),
                                   last_payment_id := some pid,
                                   last_payment_status := some "approved",
                                   last_payment_amount :=
                                     payment.transaction_amount })
                       db.users },
         "Pagamento aprovado e usuário ativado") := by
      simp only [mercadopago_webhook]
      rw [if_pos hev]
      simp [hst, hem, hf]
    rw [hrun]
    exact ⟨rfl, ⟨_, find?_update_first _ _ db.users user hf hpu, rfl, rfl⟩⟩
  · intro db et ac pid payment now user_email hev hst hem hf
    simp only [mercadopago_webhook]
    rw [if_pos hev]
    simp [hst, hem, hf]

/-- Witness for C7: the approved payment upgrades the matching user with a
7-day expiry, and on the empty store it reports the user as missing. -/
theorem mercadopago_webhook_spec_witness :
    (("payment" : String) = "payment" ∨ ("payment.updated" : String) = "payment.created" ∨
       ("payment.updated" : String) = "payment.updated") ∧
    hookPayment.status = "approved" ∧
    hookPayment.user_email = some "h@x.com" ∧
    hookDB.users.find? (fun u => u.email == "h@x.com") = some hookUser ∧
    ((mercadopago_webhook hookDB "payment" "payment.updated" (some "pay9") true
        hookPayment 11).2 = "Pagamento aprovado e usuário ativado" ∧
     (∃ u', ((mercadopago_webhook hookDB "payment" "payment.updated" (some "pay9")
          true hookPayment 11).1).users.find?
          (fun u => u.email == "h@x.com") = some u' ∧
        u'.is_premium = true ∧ u'.trial_ends_at = some (11 + 7 * 86400))) ∧
    ({} : DB).users.find? (fun u => u.email == "h@x.com") = none ∧
    mercadopago_webhook {} "payment" "payment.updated" (some "pay9") true
      hookPayment 11 = ({}, "Usuário não encontrado") :=
  ⟨Or.inl rfl, rfl, rfl, by decide,
   mercadopago_webhook_spec.1 hookDB "payment" "payment.updated" "pay9"
     hookPayment 11 "h@x.com" hookUser (Or.inl rfl) rfl rfl (by decide),
   rfl,
   mercadopago_webhook_spec.2 {} "payment" "payment.updated" "pay9" hookPayment
     11 "h@x.com" (Or.inl rfl) rfl rfl rfl⟩

/-- Claim C8: appending a product analysis to an entry whose two product
lists have equal length appends exactly one photo and one commentary and
keeps the lengths equal; a freshly created entry starts with both lists
empty. -/
theorem analyze_product_parallel_lists :
    (∀ (db : DB) (entry_id img ai : String) (now : Int) (entry : DailyEntry),
       db.daily_entries.find? (fun x => x.id == entry_id) = some entry →
       entry.products_photos.length = entry.products_analysis.length →
       ∃ e', ((analyze_product_in_entry db entry_id img ai
                now).1).daily_entries.find? (fun x => x.id == entry_id) = some e' ∧
         e'.products_photos = entry.products_photos ++ [img] ∧
         e'.products_analysis = entry.products_analysis ++ [ai] ∧
         e'.products_photos.length = e'.products_analysis.length) ∧
    (∀ (db : DB) (user_id : String) (date : Option Int) (now : Int) (fid : String),
       db.daily_entries.find?
         (entryDayPred user_id (truncToDay (date.getD now))) = none →
       (create_daily_entry db user_id date now fid).2.products_photos = [] ∧
       (create_daily_entry db user_id date now fid).2.products_analysis = []) := by
  constructor
  · intro db entry_id img ai now entry hfind hlen
    have hpe := List.find?_some hfind
    have hrun : (analyze_product_in_entry db entry_id img ai now).1 =
        { db with
            daily_entries := update_first (fun x => x.id == entry_id)
                               (fun x => { x with
                                           products_photos :=
                                             entry.products_photos ++ [img],
                                           products_analysis :=
                                             entry.products_analysis ++ [ai],
                                           updated_at := now })
                               db.daily_entries } := by
      simp only [analyze_product_in_entry]
      rw [hfind]
    rw [hrun]
    refine ⟨_, find?_update_first _ _ db.daily_entries entry hfind hpe, rfl, rfl, ?_⟩
    simp [hlen]
  · intro db user_id date now fid h0
    simp only [create_daily_entry]
    rw [h0]
    exact ⟨rfl, rfl⟩

/-- Witness for C8 on a concrete entry with one prior photo and analysis,
and a fresh entry on the empty store. -/
theorem analyze_product_parallel_lists_witness :
    entryDB.daily_entries.find? (fun x => x.id == "e1") = some entryE ∧
    entryE.products_photos.length = entryE.products_analysis.length ∧
    (∃ e', ((analyze_product_in_entry entryDB "e1" "foto1" "analise1"
        3).1).daily_entries.find? (fun x => x.id == "e1") = some e' ∧
      e'.products_photos = entryE.products_photos ++ ["foto1"] ∧
      e'.products_analysis = entryE.products_analysis ++ ["analise1"] ∧
      e'.products_photos.length = e'.products_analysis.length) ∧
    ({} : DB).daily_entries.find?
      (entryDayPred "h1" (truncToDay ((none : Option Int).getD 0))) = none ∧
    ((create_daily_entry {} "h1" none 0 "d1").2.products_photos = [] ∧
     (create_daily_entry {} "h1" none 0 "d1").2.products_analysis = []) :=
  ⟨by decide, rfl,
   (analyze_product_parallel_lists.1 entryDB "e1" "foto1" "analise1" 3 entryE
     (by decide) rfl),
   rfl,
   analyze_product_parallel_lists.2 {} "h1" none 0 "d1" rfl⟩

end Belux
